import Mathlib

/-!
Verification of the Kusanagi cluster-health service core.

The Rust sources are shallowly embedded: pure functions become Lean
functions, the per-connection session becomes explicit state passing,
machine integers become Int or Nat, fallible provider calls become
Except values, and the external chrono RFC 3339 parser becomes an
explicit function parameter of type String to Option Int (time values
are epoch seconds as Int).
-/

/-! ## String primitives

Models of the Rust standard string operations used by the sources
(str::to_lowercase, str::trim, str::contains), defined over character
lists so that they evaluate by kernel reduction. -/

/-- Model of Rust str::to_lowercase (character-wise lowering). -/
def lowerStr (s : String) : String := String.mk (s.data.map Char.toLower)

/-- Whitespace test used by the trim model. -/
def wsChar (c : Char) : Bool := c.isWhitespace

/-- Model of Rust str::trim: drop leading and trailing whitespace. -/
def trimStr (s : String) : String :=
  String.mk (((s.data.dropWhile wsChar).reverse.dropWhile wsChar).reverse)

/-- Character-list version of the starts-with test. -/
def isPrefixChars : List Char → List Char → Bool
  | [], _ => true
  | _ :: _, [] => false
  | a :: as, b :: bs => a == b && isPrefixChars as bs

/-- Does pat occur as a contiguous run inside the second list? -/
def hasSubChars (pat : List Char) : List Char → Bool
  | [] => pat.isEmpty
  | c :: rest => isPrefixChars pat (c :: rest) || hasSubChars pat rest

/-- Model of Rust str::contains: pat occurs as a substring of s. -/
def strContainsSub (s pat : String) : Bool := hasSubChars pat.data s.data

/-! ## ArgoCD module (src/argocd.rs)

Data model of the typed application records after JSON extraction,
and the issue classification and duration logic. -/

namespace Argo

/-- Enumeration IssueCategory from src/argocd.rs. -/
inductive IssueCategory where
  | realIssue
  | upgradeAvailable
  | progressing
  deriving Repr, DecidableEq

/-- SyncStatus record (fields read by the embedded code). -/
structure SyncStatus where
  status : Option String
  revision : Option String
  deriving Repr, DecidableEq

/-- HealthStatus record. -/
structure HealthStatus where
  status : Option String
  message : Option String
  deriving Repr, DecidableEq

/-- OperationState record (fields read by the embedded code). -/
structure OperationState where
  message : Option String
  startedAt : Option String
  deriving Repr, DecidableEq

/-- ApplicationStatus record. -/
structure ApplicationStatus where
  sync : Option SyncStatus
  health : Option HealthStatus
  operationState : Option OperationState
  reconciledAt : Option String
  deriving Repr, DecidableEq

/-- ApplicationSource record (fields read by the embedded code). -/
structure ApplicationSource where
  targetRevision : Option String
  chart : Option String
  deriving Repr, DecidableEq

/-- ApplicationDestination record (fields read by the embedded code). -/
structure ApplicationDestination where
  namespaceName : Option String
  deriving Repr, DecidableEq

/-- ApplicationSpec record. -/
structure ApplicationSpec where
  source : Option ApplicationSource
  destination : Option ApplicationDestination
  deriving Repr, DecidableEq

/-- ApplicationMetadata record. -/
structure ApplicationMetadata where
  name : Option String
  namespaceName : Option String
  deriving Repr, DecidableEq

/-- One ArgoCD application as extracted from the dynamic object:
metadata plus the status and spec payloads (missing payloads are
already resolved to defaults by the caller, modelled with Option). -/
structure Application where
  metadata : ApplicationMetadata
  status : ApplicationStatus
  spec : ApplicationSpec
  deriving Repr, DecidableEq

/-- Issue record AppIssue from src/argocd.rs. -/
structure AppIssue where
  name : String
  namespaceName : String
  healthStatus : String
  syncStatus : String
  message : Option String
  errorSince : Option String
  errorDuration : Option String
  category : IssueCategory
  targetRevision : Option String
  currentRevision : Option String
  isHelmChart : Bool
  canSync : Bool
  argocdUrl : String
  deriving Repr, DecidableEq

/-- Response record ArgoStatusResponse from src/argocd.rs. -/
structure ArgoStatusResponse where
  total : Nat
  healthy : Nat
  unhealthy : Nat
  synced : Nat
  outOfSync : Nat
  unknown : Nat
  progressing : Nat
  upgradesAvailable : Nat
  appsWithIssues : List AppIssue
  appsWithUpgrades : List AppIssue
  deriving Repr, DecidableEq

/-- Function categorize_issue from src/argocd.rs, line for line. -/
def categorize_issue (healthStatus syncStatus : String) (message : Option String)
    (isHelmChart : Bool) (targetRevision : Option String) : IssueCategory :=
  if healthStatus = "Progressing" then
    IssueCategory.progressing
  else if healthStatus = "Healthy" && syncStatus = "OutOfSync" then
    if (match targetRevision with
        | some rev => rev == "*" || lowerStr rev == "latest" || lowerStr rev == "head"
        | none => false) then
      IssueCategory.upgradeAvailable
    else if (match message with
        | some msg =>
          (strContainsSub (lowerStr msg) "successfully synced"
            || strContainsSub (lowerStr msg) "no more tasks"
            || strContainsSub (lowerStr msg) "all tasks run") && isHelmChart
        | none => false) then
      IssueCategory.upgradeAvailable
    else if isHelmChart then
      IssueCategory.upgradeAvailable
    else
      IssueCategory.realIssue
  else
    IssueCategory.realIssue

/-- Function format_duration from src/argocd.rs. The chrono duration is
embedded as its num_seconds value; the nonnegative arithmetic is done
on Nat, which agrees with the truncating division of Rust i64 on
nonnegative values. -/
def format_duration (totalSeconds : Int) : String :=
  if totalSeconds < 0 then "just now"
  else
    let s := totalSeconds.toNat
    let days := s / 86400
    let hours := s % 86400 / 3600
    let minutes := s % 3600 / 60
    if days > 0 then toString days ++ "d " ++ toString hours ++ "h"
    else if hours > 0 then toString hours ++ "h " ++ toString minutes ++ "m"
    else if minutes > 0 then toString minutes ++ "m"
    else toString s ++ "s"

/-- Function calculate_error_duration from src/argocd.rs. The external
chrono parse_from_rfc3339 is a parameter parse sending a raw timestamp
string to its epoch-second value, or none when the string does not
parse; now is the current epoch second. -/
def calculate_error_duration (parse : String → Option Int)
    (status : ApplicationStatus) (now : Int) : Option String × Option String :=
  match status.operationState with
  | some opState =>
    match opState.startedAt with
    | some started =>
      match parse started with
      | some startedTime => (some started, some (format_duration (now - startedTime)))
      | none => (some started, none)
    | none =>
      match status.reconciledAt with
      | some reconciled =>
        match parse reconciled with
        | some reconciledTime =>
          (some reconciled, some (format_duration (now - reconciledTime)))
        | none => (some reconciled, none)
      | none => (none, none)
  | none =>
    match status.reconciledAt with
    | some reconciled =>
      match parse reconciled with
      | some reconciledTime =>
        (some reconciled, some (format_duration (now - reconciledTime)))
      | none => (some reconciled, none)
    | none => (none, none)

/-- The timestamp string the duration logic selects: the operation
start when present, otherwise the reconciled-at value. -/
def errorTimestamp (status : ApplicationStatus) : Option String :=
  match status.operationState.bind OperationState.startedAt with
  | some started => some started
  | none => status.reconciledAt

/-- Does the target revision indicate an auto-tracking upgrade source? -/
def upgradeRevision (targetRevision : Option String) : Bool :=
  match targetRevision with
  | some rev => rev == "*" || lowerStr rev == "latest" || lowerStr rev == "head"
  | none => false

/-- A parse oracle modelling chrono on inputs none of which are valid
RFC 3339 timestamps: every lookup fails. -/
def noParse : String → Option Int := fun _ => none

end Argo

/-! ## Theorems for the issue classifier (claim C1) -/

/-- C1: categorize_issue is a total deterministic function of its five
inputs obeying the first-match order of section 4.1: Progressing health
gives progressing; Healthy plus OutOfSync gives upgradeAvailable exactly
when the target revision is an auto-tracking one (star, latest or head,
the latter two case-insensitively) or the application is a Helm chart
(the message-keyword rule is absorbed by the Helm rule, so the message
never changes the outcome); everything else is a real issue. The three
concrete instances of the claim are included. -/
theorem categorize_issue_decision_order :
    (∀ (h s : String) (m : Option String) (helm : Bool) (rev : Option String),
      Argo.categorize_issue h s m helm rev =
        (if h = "Progressing" then Argo.IssueCategory.progressing
         else if h = "Healthy" ∧ s = "OutOfSync" ∧ (Argo.upgradeRevision rev || helm) then
           Argo.IssueCategory.upgradeAvailable
         else Argo.IssueCategory.realIssue))
    ∧ Argo.categorize_issue "Healthy" "OutOfSync" none true (some "*") =
        Argo.IssueCategory.upgradeAvailable
    ∧ Argo.categorize_issue "Progressing" "OutOfSync" none false (some "1.2.3") =
        Argo.IssueCategory.progressing
    ∧ Argo.categorize_issue "Degraded" "Synced" none false none =
        Argo.IssueCategory.realIssue := by
  refine ⟨?_, by decide, by decide, by decide⟩
  intro h s m helm rev
  by_cases hp : h = "Progressing"
  · simp [Argo.categorize_issue, hp]
  · by_cases hh : h = "Healthy"
    · by_cases hs : s = "OutOfSync"
      · simp only [Argo.categorize_issue, Argo.upgradeRevision, hp, hh, hs,
          if_false, if_true, ite_true, ite_false, eq_self_iff_true, true_and,
          and_true, Bool.and_eq_true, decide_eq_true_eq, not_false_iff]
        cases rev <;> cases m <;> cases helm <;>
          simp [Argo.upgradeRevision]
      · simp [Argo.categorize_issue, hp, hh, hs]
    · simp [Argo.categorize_issue, hp, hh]

/-! ## Theorems for the duration formatter (claim C6) -/

/-- C6: format_duration maps every elapsed time to a string by bucketed
granularity: at least one day gives days and hours, else at least one
hour gives hours and minutes, else at least one minute gives minutes,
else seconds, and any negative elapsed time gives the literal just now.
The four concrete instances of the claim are included. -/
theorem format_duration_buckets (t : Int) :
    (t < 0 → Argo.format_duration t = "just now")
    ∧ (86400 ≤ t →
        Argo.format_duration t =
          toString (t.toNat / 86400) ++ "d " ++ toString (t.toNat % 86400 / 3600) ++ "h")
    ∧ (3600 ≤ t → t < 86400 →
        Argo.format_duration t =
          toString (t.toNat / 3600) ++ "h " ++ toString (t.toNat % 3600 / 60) ++ "m")
    ∧ (60 ≤ t → t < 3600 →
        Argo.format_duration t = toString (t.toNat / 60) ++ "m")
    ∧ (0 ≤ t → t < 60 → Argo.format_duration t = toString t.toNat ++ "s")
    ∧ Argo.format_duration 90000 = "1d 1h"
    ∧ Argo.format_duration 3661 = "1h 1m"
    ∧ Argo.format_duration 45 = "45s"
    ∧ Argo.format_duration (-5) = "just now" := by
  refine ⟨?_, ?_, ?_, ?_, ?_, by decide, by decide, by decide, by decide⟩
  · intro hneg
    simp [Argo.format_duration, hneg]
  · intro hd
    have hnn : ¬ t < 0 := by omega
    have h1 : 0 < t.toNat / 86400 := by
      have : 86400 ≤ t.toNat := by omega
      omega
    simp only [Argo.format_duration, hnn, if_false, ite_false]
    simp [h1]
  · intro hlo hhi
    have hnn : ¬ t < 0 := by omega
    have hd0 : t.toNat / 86400 = 0 := by omega
    have hmod : t.toNat % 86400 = t.toNat := by omega
    have hh : 0 < t.toNat / 3600 := by omega
    simp only [Argo.format_duration, hnn, if_false, ite_false]
    simp [hd0, hmod, hh]
  · intro hlo hhi
    have hnn : ¬ t < 0 := by omega
    have hd0 : t.toNat / 86400 = 0 := by omega
    have hmod : t.toNat % 86400 = t.toNat := by omega
    have hh0 : t.toNat / 3600 = 0 := by omega
    have hmod2 : t.toNat % 3600 = t.toNat := by omega
    have hm : 0 < t.toNat / 60 := by omega
    simp only [Argo.format_duration, hnn, if_false, ite_false]
    simp [hd0, hh0, hmod, hmod2, hm]
  · intro hlo hhi
    have hnn : ¬ t < 0 := by omega
    have hd0 : t.toNat / 86400 = 0 := by omega
    have hh0 : t.toNat % 86400 / 3600 = 0 := by omega
    have hm0 : t.toNat % 3600 / 60 = 0 := by omega
    simp only [Argo.format_duration, hnn, if_false, ite_false]
    simp [hd0, hh0, hm0]

/-- Witness for the bucket theorem at concrete elapsed times: 3661
seconds lies in the hour bucket and formats as one hour one minute,
and the day bucket fires at 90000 seconds. -/
theorem format_duration_buckets_witness :
    ((3600 : Int) ≤ 3661 ∧ (3661 : Int) < 86400
      ∧ Argo.format_duration 3661 =
          toString ((3661 : Int).toNat / 3600) ++ "h "
            ++ toString ((3661 : Int).toNat % 3600 / 60) ++ "m")
    ∧ ((86400 : Int) ≤ 90000
      ∧ Argo.format_duration 90000 =
          toString ((90000 : Int).toNat / 86400) ++ "d "
            ++ toString ((90000 : Int).toNat % 86400 / 3600) ++ "h") :=
  ⟨⟨by decide, by decide,
    (format_duration_buckets 3661).2.2.1 (by decide) (by decide)⟩,
   ⟨by decide, (format_duration_buckets 90000).2.1 (by decide)⟩⟩

/-! ## Theorems for the duration derivation (claim C7) -/

/-- C7 counterexample: an application status whose operation start
timestamp is present but not parseable. The code surfaces the raw
string and a duration of none, so a present timestamp field does not
imply a present duration, refuting the claimed equivalence between a
missing duration and the absence of both timestamp fields. -/
theorem calculate_error_duration_iff_counterexample :
    ¬ ((Argo.calculate_error_duration Argo.noParse
          { sync := none, health := none,
            operationState := some { message := none, startedAt := some "not-a-date" },
            reconciledAt := none } 0).2 = none
        ↔ (({ sync := none, health := none,
              operationState := some { message := none, startedAt := some "not-a-date" },
              reconciledAt := none } : Argo.ApplicationStatus).operationState.bind
                Argo.OperationState.startedAt = none
            ∧ ({ sync := none, health := none,
                 operationState := some { message := none, startedAt := some "not-a-date" },
                 reconciledAt := none } : Argo.ApplicationStatus).reconciledAt = none)) := by
  decide

/-- C7 amended: calculate_error_duration selects the operation start
timestamp when present and otherwise the reconciled-at timestamp; the
selected raw string is always surfaced as error_since, so error_since
is none exactly when neither timestamp field is present, while
error_duration is additionally none whenever the selected timestamp
fails to parse (even though a timestamp field is present). -/
theorem calculate_error_duration_spec (parse : String → Option Int)
    (status : Argo.ApplicationStatus) (now : Int) :
    Argo.calculate_error_duration parse status now =
      (Argo.errorTimestamp status,
        (Argo.errorTimestamp status).bind
          (fun raw => (parse raw).map (fun t => Argo.format_duration (now - t)))) := by
  unfold Argo.calculate_error_duration Argo.errorTimestamp
  cases hop : status.operationState with
  | none =>
    cases hrec : status.reconciledAt with
    | none => simp
    | some reconciled => cases hpr : parse reconciled <;> simp [hpr]
  | some opState =>
    cases hst : opState.startedAt with
    | none =>
      cases hrec : status.reconciledAt with
      | none => simp [hst]
      | some reconciled => cases hpr : parse reconciled <;> simp [hst, hpr]
    | some started => cases hpr : parse started <;> simp [hst, hpr]

/-! ## The ArgoCD status aggregation loop (claim C9) -/

namespace Argo

/-- Health status string of an application with the Unknown default,
as extracted at the top of the loop in get_argocd_status. -/
def healthStatusOf (status : ApplicationStatus) : String :=
  (status.health.bind HealthStatus.status).getD "Unknown"

/-- Sync status string of an application with the Unknown default. -/
def syncStatusOf (status : ApplicationStatus) : String :=
  (status.sync.bind SyncStatus.status).getD "Unknown"

/-- The issue condition of get_argocd_status: not healthy, out of
sync, or unknown sync. -/
def has_issue (app : Application) : Prop :=
  healthStatusOf app.status ≠ "Healthy"
    ∨ syncStatusOf app.status = "OutOfSync"
    ∨ syncStatusOf app.status = "Unknown"

instance (app : Application) : Decidable (has_issue app) := by
  unfold has_issue; infer_instance

/-- Body of the per-application loop of get_argocd_status: updates the
running response for one application. -/
def processApp (now : Int) (parse : String → Option Int)
    (r : ArgoStatusResponse) (app : Application) : ArgoStatusResponse :=
  let name := app.metadata.name.getD ""
  let status := app.status
  let spec := app.spec
  let destNamespace := (spec.destination.bind ApplicationDestination.namespaceName).getD ""
  let healthStatus := healthStatusOf status
  let syncStatus := syncStatusOf status
  let isHelmChart := (spec.source.bind ApplicationSource.chart).isSome
  let targetRevision := spec.source.bind ApplicationSource.targetRevision
  let currentRevision := status.sync.bind SyncStatus.revision
  let r1 :=
    if healthStatus = "Healthy" then { r with healthy := r.healthy + 1 }
    else if healthStatus = "Progressing" then { r with progressing := r.progressing + 1 }
    else if healthStatus = "Unknown" then { r with unknown := r.unknown + 1 }
    else { r with unhealthy := r.unhealthy + 1 }
  let r2 :=
    if syncStatus = "Synced" then { r1 with synced := r1.synced + 1 }
    else if syncStatus = "OutOfSync" then { r1 with outOfSync := r1.outOfSync + 1 }
    else r1
  if has_issue app then
    let message :=
      match status.health.bind HealthStatus.message with
      | some m => some m
      | none => status.operationState.bind OperationState.message
    let category := categorize_issue healthStatus syncStatus message isHelmChart targetRevision
    let since_duration := calculate_error_duration parse status now
    let argocdUrl := "https://argocd.p.zacharie.org/applications/argocd/" ++ name
    let appIssue : AppIssue :=
      { name := name, namespaceName := destNamespace,
        healthStatus := healthStatus, syncStatus := syncStatus,
        message := message, errorSince := since_duration.1,
        errorDuration := since_duration.2, category := category,
        targetRevision := targetRevision, currentRevision := currentRevision,
        isHelmChart := isHelmChart,
        canSync := healthStatus = "Healthy" ∨ healthStatus = "Progressing",
        argocdUrl := argocdUrl }
    if category = IssueCategory.upgradeAvailable then
      { r2 with upgradesAvailable := r2.upgradesAvailable + 1,
                appsWithUpgrades := r2.appsWithUpgrades ++ [appIssue] }
    else
      { r2 with appsWithIssues := r2.appsWithIssues ++ [appIssue] }
  else r2

/-- Function get_argocd_status from src/argocd.rs, as a pure function
of the listed applications: the initial response fixes total to the
number of applications and the loop is a fold of processApp. -/
def get_argocd_status (apps : List Application) (now : Int)
    (parse : String → Option Int) : ArgoStatusResponse :=
  let response : ArgoStatusResponse :=
    { total := apps.length, healthy := 0, unhealthy := 0, synced := 0,
      outOfSync := 0, unknown := 0, progressing := 0, upgradesAvailable := 0,
      appsWithIssues := [], appsWithUpgrades := [] }
  apps.foldl (processApp now parse) response

/-- Sum of the four health tallies of a response. -/
def healthTallySum (r : ArgoStatusResponse) : Nat :=
  r.healthy + r.unhealthy + r.unknown + r.progressing

end Argo

/-- One loop step changes the counters of the running response by
exactly the amounts C9 needs: the health tallies grow by one, the
total is untouched, the upgrade counter moves with the upgrade list,
and the two issue lists together grow exactly on apps with an issue. -/
theorem processApp_step_counts (now : Int) (parse : String → Option Int)
    (r : Argo.ArgoStatusResponse) (app : Argo.Application) :
    Argo.healthTallySum (Argo.processApp now parse r app) = Argo.healthTallySum r + 1
    ∧ (Argo.processApp now parse r app).total = r.total
    ∧ ((Argo.processApp now parse r app).upgradesAvailable
          + (Argo.processApp now parse r app).appsWithIssues.length
        = r.upgradesAvailable + r.appsWithIssues.length
            + (if Argo.has_issue app then 1 else 0))
    ∧ ((Argo.processApp now parse r app).appsWithUpgrades.length
          + (Argo.processApp now parse r app).appsWithIssues.length
        = r.appsWithUpgrades.length + r.appsWithIssues.length
            + (if Argo.has_issue app then 1 else 0))
    ∧ ((Argo.processApp now parse r app).upgradesAvailable
          - (Argo.processApp now parse r app).appsWithUpgrades.length
        = r.upgradesAvailable - r.appsWithUpgrades.length)
    ∧ ((Argo.processApp now parse r app).appsWithUpgrades.length
          - (Argo.processApp now parse r app).upgradesAvailable
        = r.appsWithUpgrades.length - r.upgradesAvailable) := by
  simp only [Argo.processApp, Argo.healthTallySum]
  split_ifs <;> simp <;> omega

/-- One loop step preserves the agreement between the upgrade counter
and the length of the upgrade list. -/
theorem processApp_upgrades_agree (now : Int) (parse : String → Option Int)
    (r : Argo.ArgoStatusResponse) (app : Argo.Application)
    (h : r.upgradesAvailable = r.appsWithUpgrades.length) :
    (Argo.processApp now parse r app).upgradesAvailable
      = (Argo.processApp now parse r app).appsWithUpgrades.length := by
  simp only [Argo.processApp]
  split_ifs <;> simp [h]

/-- Folding the loop over a list of applications adds one to the health
tallies per application, keeps the total, adds one issue-or-upgrade
entry per application with an issue, and preserves the upgrade-counter
agreement. -/
theorem foldl_processApp_invariants (now : Int) (parse : String → Option Int) :
    ∀ (apps : List Argo.Application) (r : Argo.ArgoStatusResponse),
      Argo.healthTallySum (List.foldl (Argo.processApp now parse) r apps)
          = Argo.healthTallySum r + apps.length
      ∧ (List.foldl (Argo.processApp now parse) r apps).total = r.total
      ∧ ((List.foldl (Argo.processApp now parse) r apps).appsWithUpgrades.length
            + (List.foldl (Argo.processApp now parse) r apps).appsWithIssues.length
          = r.appsWithUpgrades.length + r.appsWithIssues.length
              + apps.countP (fun a => decide (Argo.has_issue a)))
      ∧ (r.upgradesAvailable = r.appsWithUpgrades.length →
          (List.foldl (Argo.processApp now parse) r apps).upgradesAvailable
            = (List.foldl (Argo.processApp now parse) r apps).appsWithUpgrades.length) := by
  intro apps
  induction apps with
  | nil => intro r; simp
  | cons a l ih =>
    intro r
    obtain ⟨hs1, hs2, hs3, hs4, hs5, hs6⟩ := processApp_step_counts now parse r a
    obtain ⟨hr1, hr2, hr3, hr4⟩ := ih (Argo.processApp now parse r a)
    refine ⟨?_, ?_, ?_, ?_⟩
    · simp only [List.foldl_cons, List.length_cons]
      omega
    · simp only [List.foldl_cons]
      omega
    · simp only [List.foldl_cons, List.countP_cons]
      by_cases hi : Argo.has_issue a
      · simp only [hi, if_true, decide_True, if_pos] at hs4 ⊢
        omega
      · simp only [hi, if_false, decide_False, Bool.false_eq_true] at hs4 ⊢
        omega
    · intro hagree
      simp only [List.foldl_cons]
      exact hr4 (processApp_upgrades_agree now parse r a hagree)

/-- C9: in every ArgoStatusResponse produced by get_argocd_status, the
four health tallies partition the total, the total is the number of
listed applications, every application satisfying the issue condition
contributes exactly one entry across the two issue lists, and the
upgrade counter equals the length of the upgrade list. -/
theorem get_argocd_status_invariants (apps : List Argo.Application) (now : Int)
    (parse : String → Option Int) :
    (Argo.get_argocd_status apps now parse).healthy
        + (Argo.get_argocd_status apps now parse).unhealthy
        + (Argo.get_argocd_status apps now parse).unknown
        + (Argo.get_argocd_status apps now parse).progressing
      = (Argo.get_argocd_status apps now parse).total
    ∧ (Argo.get_argocd_status apps now parse).total = apps.length
    ∧ (Argo.get_argocd_status apps now parse).appsWithIssues.length
          + (Argo.get_argocd_status apps now parse).appsWithUpgrades.length
        = apps.countP (fun a => decide (Argo.has_issue a))
    ∧ (Argo.get_argocd_status apps now parse).upgradesAvailable
        = (Argo.get_argocd_status apps now parse).appsWithUpgrades.length := by
  have h := foldl_processApp_invariants now parse apps
    { total := apps.length, healthy := 0, unhealthy := 0, synced := 0,
      outOfSync := 0, unknown := 0, progressing := 0, upgradesAvailable := 0,
      appsWithIssues := [], appsWithUpgrades := [] }
  simp only [Argo.get_argocd_status]
  rcases h with ⟨h1, h2, h3, h4⟩
  simp only [Argo.healthTallySum] at h1
  dsimp only at h1 h2 h3 h4 ⊢
  simp only [List.length_nil] at h3
  refine ⟨?_, ?_, ?_, ?_⟩
  · omega
  · omega
  · omega
  · exact h4 rfl

/-! ## Pods module (src/pods.rs)

Data model of pod and container status records and the pod error
detection scan of get_pods_status. -/

namespace Pods

/-- Waiting container state payload. -/
structure ContainerStateWaiting where
  reason : Option String
  message : Option String
  deriving Repr, DecidableEq

/-- Terminated container state payload. -/
structure ContainerStateTerminated where
  reason : Option String
  message : Option String
  deriving Repr, DecidableEq

/-- Container state record with the three optional variants of the
kubernetes API (running carries no data the code reads). -/
structure ContainerState where
  running : Option Unit
  waiting : Option ContainerStateWaiting
  terminated : Option ContainerStateTerminated
  deriving Repr, DecidableEq

/-- ContainerStatus record (fields read by the embedded code). -/
structure ContainerStatus where
  name : String
  ready : Bool
  restartCount : Int
  state : Option ContainerState
  deriving Repr, DecidableEq

/-- PodStatus record (fields read by the embedded code). -/
structure PodStatus where
  phase : Option String
  reason : Option String
  message : Option String
  containerStatuses : Option (List ContainerStatus)
  initContainerStatuses : Option (List ContainerStatus)
  deriving Repr, DecidableEq

/-- PodSpec record (fields read by the embedded code). -/
structure PodSpec where
  nodeName : Option String
  deriving Repr, DecidableEq

/-- Pod metadata record (fields read by the embedded code). -/
structure PodMetadata where
  name : Option String
  namespaceName : Option String
  creationTimestamp : Option String
  deriving Repr, DecidableEq

/-- One pod as listed by the kubernetes API. -/
structure Pod where
  metadata : PodMetadata
  spec : Option PodSpec
  status : Option PodStatus
  deriving Repr, DecidableEq

/-- ContainerInfo record from src/pods.rs. -/
structure ContainerInfo where
  name : String
  ready : Bool
  restartCount : Int
  state : String
  reason : Option String
  message : Option String
  deriving Repr, DecidableEq

/-- PodInfo record from src/pods.rs. -/
structure PodInfo where
  name : String
  namespaceName : String
  status : String
  reason : Option String
  message : Option String
  node : Option String
  restartCount : Int
  age : String
  ageSeconds : Int
  containers : List ContainerInfo
  deriving Repr, DecidableEq

/-- PodsStatusResponse record from src/pods.rs. -/
structure PodsStatusResponse where
  totalPods : Nat
  runningPods : Nat
  pendingPods : Nat
  succeededPods : Nat
  failedPods : Nat
  errorPods : Nat
  podsInError : List PodInfo
  deriving Repr, DecidableEq

/-- Constant ERROR_REASONS from src/pods.rs. -/
def ERROR_REASONS : List String :=
  ["CrashLoopBackOff", "ImagePullBackOff", "ErrImagePull",
   "CreateContainerConfigError", "CreateContainerError", "RunContainerError",
   "OOMKilled", "Error", "InvalidImageName", "ContainerCannotRun",
   "DeadlineExceeded", "Evicted"]

/-- Function get_container_state_info from src/pods.rs: state name plus
reason and message, checking running, waiting, terminated in order. -/
def get_container_state_info (cs : ContainerStatus) :
    String × Option String × Option String :=
  match cs.state with
  | some state =>
    match state.running with
    | some _ => ("Running", none, none)
    | none =>
      match state.waiting with
      | some w => ("Waiting", w.reason, w.message)
      | none =>
        match state.terminated with
        | some t => ("Terminated", t.reason, t.message)
        | none => ("Unknown", none, none)
  | none => ("Unknown", none, none)

/-- The error-reason test of src/pods.rs: some entry of ERROR_REASONS
occurs as a substring of the reason (Rust r.contains(er)). -/
def matchesErrorReason (r : String) : Bool :=
  ERROR_REASONS.any (fun er => strContainsSub r er)

/-- Function format_age from src/pods.rs (note: no space between the
units, unlike format_duration). -/
def format_age (seconds : Int) : String :=
  if seconds < 0 then "just now"
  else
    let s := seconds.toNat
    let days := s / 86400
    let hours := s % 86400 / 3600
    let minutes := s % 3600 / 60
    if days > 0 then toString days ++ "d" ++ toString hours ++ "h"
    else if hours > 0 then toString hours ++ "h" ++ toString minutes ++ "m"
    else if minutes > 0 then toString minutes ++ "m"
    else toString s ++ "s"

/-- Running analysis state of the per-pod container scan: the mutable
locals total_restarts, is_error_pod, pod_error_reason,
pod_error_message and containers of the loop body. -/
structure ScanState where
  totalRestarts : Int
  isErr : Bool
  reason : Option String
  message : Option String
  containers : List ContainerInfo
  deriving Repr, DecidableEq

/-- One container-status step of the scan: regular containers add
their restart count, a matching error reason marks the pod as an error
and records reason and message only when none was recorded yet, and
the container info is appended (init containers get the init prefix). -/
def scanContainer (isInit : Bool) (st : ScanState) (cs : ContainerStatus) : ScanState :=
  let newRestarts := if isInit then st.totalRestarts else st.totalRestarts + cs.restartCount
  let info := get_container_state_info cs
  let hit := match info.2.1 with
    | some r => matchesErrorReason r
    | none => false
  let st1 :=
    if hit then
      if st.reason = none then
        { st with isErr := true, reason := info.2.1, message := info.2.2 }
      else { st with isErr := true }
    else st
  { st1 with
    totalRestarts := newRestarts,
    containers := st1.containers ++
      [{ name := if isInit then "init:" ++ cs.name else cs.name,
         ready := cs.ready, restartCount := cs.restartCount,
         state := info.1, reason := info.2.1, message := info.2.2 }] }

/-- The phase string of a pod with the Unknown default. -/
def phaseOf (pod : Pod) : String := (pod.status.bind PodStatus.phase).getD "Unknown"

/-- The complete error analysis of one pod from the loop body of
get_pods_status: phase check, container and init-container scan, and
the high-restart-count fallback. -/
def scan_pod (pod : Pod) : ScanState :=
  let status := pod.status
  let st0 : ScanState :=
    if phaseOf pod = "Failed" then
      { totalRestarts := 0, isErr := true,
        reason := status.bind PodStatus.reason,
        message := status.bind PodStatus.message, containers := [] }
    else
      { totalRestarts := 0, isErr := false, reason := none, message := none,
        containers := [] }
  let st1 := ((status.bind PodStatus.containerStatuses).getD []).foldl (scanContainer false) st0
  let st2 := ((status.bind PodStatus.initContainerStatuses).getD []).foldl (scanContainer true) st1
  if st2.totalRestarts > 5 ∧ st2.isErr = false then
    { st2 with
      isErr := true,
      reason := some ("HighRestartCount (" ++ toString st2.totalRestarts ++ ")") }
  else st2

/-- Body of the per-pod loop of get_pods_status. -/
def processPod (now : Int) (parse : String → Option Int)
    (r : PodsStatusResponse) (pod : Pod) : PodsStatusResponse :=
  let name := pod.metadata.name.getD ""
  let namespaceName := pod.metadata.namespaceName.getD ""
  let phase := phaseOf pod
  let r1 :=
    if phase = "Running" then { r with runningPods := r.runningPods + 1 }
    else if phase = "Pending" then { r with pendingPods := r.pendingPods + 1 }
    else if phase = "Succeeded" then { r with succeededPods := r.succeededPods + 1 }
    else if phase = "Failed" then { r with failedPods := r.failedPods + 1 }
    else r
  let node := pod.spec.bind PodSpec.nodeName
  let agePair : String × Int :=
    match pod.metadata.creationTimestamp with
    | some ts =>
      match parse ts with
      | some dt => (format_age (now - dt), now - dt)
      | none => ("Unknown", 0)
    | none => ("Unknown", 0)
  let st := scan_pod pod
  if st.isErr then
    { r1 with
      errorPods := r1.errorPods + 1,
      podsInError := r1.podsInError ++
        [{ name := name, namespaceName := namespaceName, status := phase,
           reason := st.reason, message := st.message, node := node,
           restartCount := st.totalRestarts, age := agePair.1,
           ageSeconds := agePair.2, containers := st.containers }] }
  else r1

/-- The comparator of the final sort of get_pods_status, as the
corresponding weak order: a precedes b when a has strictly more
restarts, or equal restarts and no larger age. -/
def podLe (a b : PodInfo) : Bool :=
  b.restartCount < a.restartCount
    || (a.restartCount == b.restartCount && a.ageSeconds ≤ b.ageSeconds)

/-- Propositional form of the sort comparator. -/
def podRel (a b : PodInfo) : Prop := podLe a b = true

instance : DecidableRel podRel := fun a b => by unfold podRel; infer_instance

/-- Function get_pods_status from src/pods.rs as a pure function of
the listed pods: fold of the loop body, then the stable sort of the
error list by the comparator (Rust sort_by; insertion sort is a stable
sort realizing the same ordering contract). -/
def get_pods_status (pods : List Pod) (now : Int)
    (parse : String → Option Int) : PodsStatusResponse :=
  let response : PodsStatusResponse :=
    { totalPods := pods.length, runningPods := 0, pendingPods := 0,
      succeededPods := 0, failedPods := 0, errorPods := 0, podsInError := [] }
  let folded := pods.foldl (processPod now parse) response
  { folded with podsInError := folded.podsInError.insertionSort podRel }

/-- The container-level error content the scan can pick up from one
container status: its reason and message when the reason matches the
error set. -/
def containerIssueOf (cs : ContainerStatus) : Option (Option String × Option String) :=
  let info := get_container_state_info cs
  match info.2.1 with
  | some r => if matchesErrorReason r then some (info.2.1, info.2.2) else none
  | none => none

/-- First matching container issue across regular then init
containers, in scan order. -/
def firstContainerIssue (pod : Pod) : Option (Option String × Option String) :=
  (((pod.status.bind PodStatus.containerStatuses).getD [])
    ++ ((pod.status.bind PodStatus.initContainerStatuses).getD [])).findSome?
      containerIssueOf

/-- Sum of the restart counts of the regular (non-init) containers,
the quantity the code accumulates into total_restarts. -/
def regularRestartSum (pod : Pod) : Int :=
  (((pod.status.bind PodStatus.containerStatuses).getD []).map
    ContainerStatus.restartCount).sum

end Pods

/-! ## Theorems for the pod error detector (claims C5 and C10) -/


/-- A recorded container issue always carries a present reason. -/
theorem containerIssueOf_reason_isSome (cs : Pods.ContainerStatus)
    (rm : Option String × Option String) (h : Pods.containerIssueOf cs = some rm) :
    rm.1.isSome := by
  unfold Pods.containerIssueOf at h
  rcases hi : (Pods.get_container_state_info cs).2.1 with - | r
  · simp [hi] at h
  · simp only [hi] at h
    by_cases hm : Pods.matchesErrorReason r
    · simp only [hm, if_true, if_pos, Option.some.injEq] at h
      subst h
      simp
    · simp [hm] at h

/-- One container step of the scan, characterized: restart counts
accumulate for regular containers only, the error flag picks up a
matching reason, and reason and message are recorded only when no
reason was recorded before. -/
theorem scanContainer_step (isInit : Bool) (st : Pods.ScanState)
    (cs : Pods.ContainerStatus) :
    ((Pods.scanContainer isInit st cs).totalRestarts
        = st.totalRestarts + (if isInit then 0 else cs.restartCount))
    ∧ ((Pods.scanContainer isInit st cs).isErr
        = (st.isErr || (Pods.containerIssueOf cs).isSome))
    ∧ (∀ r0, st.reason = some r0 →
        (Pods.scanContainer isInit st cs).reason = some r0
          ∧ (Pods.scanContainer isInit st cs).message = st.message)
    ∧ (st.reason = none →
        (Pods.scanContainer isInit st cs).reason
            = (Pods.containerIssueOf cs).bind Prod.fst
          ∧ (Pods.scanContainer isInit st cs).message
            = ((Pods.containerIssueOf cs).map Prod.snd).getD st.message) := by
  unfold Pods.scanContainer Pods.containerIssueOf
  rcases hi : (Pods.get_container_state_info cs).2.1 with - | r
  · cases isInit <;> simp [hi]
  · by_cases hm : Pods.matchesErrorReason r
    · cases hst : st.reason <;> cases isInit <;> simp [hi, hm, hst]
    · cases hst : st.reason <;> cases isInit <;> simp [hi, hm, hst]

/-- Folding the container scan over a status list, characterized in
terms of the first matching container issue of the list: restarts
accumulate (for regular containers), the error flag records whether
any container matched, and the first match sets reason and message
exactly when none was recorded before the fold. -/
theorem scanContainer_foldl (isInit : Bool) :
    ∀ (l : List Pods.ContainerStatus) (st : Pods.ScanState),
      ((l.foldl (Pods.scanContainer isInit) st).totalRestarts
          = st.totalRestarts
              + (if isInit then 0 else (l.map Pods.ContainerStatus.restartCount).sum))
      ∧ ((l.foldl (Pods.scanContainer isInit) st).isErr
          = (st.isErr || (l.findSome? Pods.containerIssueOf).isSome))
      ∧ (∀ r0, st.reason = some r0 →
          (l.foldl (Pods.scanContainer isInit) st).reason = some r0
            ∧ (l.foldl (Pods.scanContainer isInit) st).message = st.message)
      ∧ (st.reason = none →
          (l.foldl (Pods.scanContainer isInit) st).reason
              = (l.findSome? Pods.containerIssueOf).bind Prod.fst
            ∧ (l.foldl (Pods.scanContainer isInit) st).message
              = ((l.findSome? Pods.containerIssueOf).map Prod.snd).getD st.message) := by
  intro l
  induction l with
  | nil => intro st; simp
  | cons c cl ih =>
    intro st
    obtain ⟨hs1, hs2, hs3, hs4⟩ := scanContainer_step isInit st c
    obtain ⟨hr1, hr2, hr3, hr4⟩ := ih (Pods.scanContainer isInit st c)
    simp only [List.foldl_cons, List.findSome?_cons, List.map_cons, List.sum_cons]
    refine ⟨?_, ?_, ?_, ?_⟩
    · rw [hr1, hs1]
      cases isInit <;> simp <;> omega
    · rw [hr2, hs2]
      rcases hc : Pods.containerIssueOf c with - | rm
      · simp [hc, Bool.or_assoc]
      · simp [hc, Bool.or_assoc]
    · intro r0 h0
      obtain ⟨ha, hb⟩ := hs3 r0 h0
      obtain ⟨hc2, hd⟩ := hr3 r0 ha
      exact ⟨hc2, hd.trans hb⟩
    · intro h0
      obtain ⟨ha, hb⟩ := hs4 h0
      rcases hc : Pods.containerIssueOf c with - | rm
      · simp only [hc] at ha hb
        simp at ha hb
        obtain ⟨hc2, hd⟩ := hr4 ha
        simp [hc, hc2, hd, hb]
      · have hrm := containerIssueOf_reason_isSome c rm hc
        obtain ⟨rr, hrr⟩ := Option.isSome_iff_exists.mp hrm
        simp only [hc] at ha hb
        simp at ha hb
        rw [hrr] at ha
        obtain ⟨hc2, hd⟩ := hr3 rr ha
        refine ⟨?_, ?_⟩
        · simp [hc, hc2, hrr]
        · simp [hc, hd, hb]

/-- The regular-then-init container scan of one pod, characterized in
terms of the first matching issue across both lists in scan order. -/
theorem double_fold_spec (regs inits : List Pods.ContainerStatus)
    (st0 : Pods.ScanState) :
    ((inits.foldl (Pods.scanContainer true)
        (regs.foldl (Pods.scanContainer false) st0)).totalRestarts
      = st0.totalRestarts + (regs.map Pods.ContainerStatus.restartCount).sum)
    ∧ ((inits.foldl (Pods.scanContainer true)
          (regs.foldl (Pods.scanContainer false) st0)).isErr
        = (st0.isErr || ((regs ++ inits).findSome? Pods.containerIssueOf).isSome))
    ∧ (∀ r0, st0.reason = some r0 →
        (inits.foldl (Pods.scanContainer true)
            (regs.foldl (Pods.scanContainer false) st0)).reason = some r0
          ∧ (inits.foldl (Pods.scanContainer true)
              (regs.foldl (Pods.scanContainer false) st0)).message = st0.message)
    ∧ (st0.reason = none → st0.message = none →
        (inits.foldl (Pods.scanContainer true)
            (regs.foldl (Pods.scanContainer false) st0)).reason
          = ((regs ++ inits).findSome? Pods.containerIssueOf).bind Prod.fst
        ∧ (inits.foldl (Pods.scanContainer true)
            (regs.foldl (Pods.scanContainer false) st0)).message
          = (((regs ++ inits).findSome? Pods.containerIssueOf).map Prod.snd).getD none) := by
  obtain ⟨ha1, ha2, ha3, ha4⟩ := scanContainer_foldl false regs st0
  obtain ⟨hb1, hb2, hb3, hb4⟩ :=
    scanContainer_foldl true inits (regs.foldl (Pods.scanContainer false) st0)
  refine ⟨?_, ?_, ?_, ?_⟩
  · rw [hb1, ha1]; simp
  · rw [hb2, ha2]
    rcases hra : regs.findSome? Pods.containerIssueOf with - | rm
    · simp [List.findSome?_append, hra, Bool.or_assoc]
    · simp [List.findSome?_append, hra, Bool.or_assoc]
  · intro r0 h0
    obtain ⟨hx, hy⟩ := ha3 r0 h0
    obtain ⟨hz, hw⟩ := hb3 r0 hx
    exact ⟨hz, hw.trans hy⟩
  · intro h0 hm0
    obtain ⟨hx, hy⟩ := ha4 h0
    rcases hra : regs.findSome? Pods.containerIssueOf with - | rm
    · simp only [hra, Option.bind, Option.map, Option.getD] at hx hy
      rw [hm0] at hy
      obtain ⟨hz, hw⟩ := hb4 hx
      rw [hy] at hw
      rw [List.findSome?_append, hra, Option.none_or]
      exact ⟨hz, hw⟩
    · have hrm : rm.1.isSome = true := by
        obtain ⟨cs, -, hcs⟩ := List.exists_of_findSome?_eq_some hra
        exact containerIssueOf_reason_isSome cs rm hcs
      obtain ⟨rr, hrr⟩ := Option.isSome_iff_exists.mp hrm
      simp only [hra, Option.some_bind, Option.map_some', Option.getD_some] at hx hy
      rw [hrr] at hx
      obtain ⟨hz, hw⟩ := hb3 rr hx
      rw [hy] at hw
      rw [List.findSome?_append, hra, Option.or_some]
      refine ⟨?_, ?_⟩
      · rw [Option.some_bind, hz, hrr]
      · rw [Option.map_some', Option.getD_some]
        exact hw

/-- C5 amended: the pod error detector of get_pods_status marks a pod
as an error exactly when its phase is Failed (phase Unknown is not an
error), or some container status, regular or init, carries a state
reason (from a Waiting or a Terminated state) containing one of the
twelve listed strings as a substring, or the restart counts of the
regular (non-init) containers sum to more than five. When the phase is
not Failed, the first matching container's reason and message are
recorded and never overwritten, the restart rule synthesizes the
HighRestartCount reason from the regular-container restart sum, and a
pod matching no rule carries no reason or message; when the phase is
Failed, a present top-level status reason and its message are kept. -/
theorem pods_error_detector_amended (pod : Pods.Pod) :
    ((Pods.scan_pod pod).totalRestarts = Pods.regularRestartSum pod)
    ∧ ((Pods.scan_pod pod).isErr
        = (decide (Pods.phaseOf pod = "Failed")
            || (Pods.firstContainerIssue pod).isSome
            || decide (5 < Pods.regularRestartSum pod)))
    ∧ (Pods.phaseOf pod ≠ "Failed" →
        ∀ rm, Pods.firstContainerIssue pod = some rm →
          (Pods.scan_pod pod).reason = rm.1 ∧ (Pods.scan_pod pod).message = rm.2)
    ∧ (Pods.phaseOf pod ≠ "Failed" → Pods.firstContainerIssue pod = none →
        5 < Pods.regularRestartSum pod →
          (Pods.scan_pod pod).reason
              = some ("HighRestartCount ("
                  ++ toString (Pods.regularRestartSum pod) ++ ")")
            ∧ (Pods.scan_pod pod).message = none)
    ∧ (Pods.phaseOf pod ≠ "Failed" → Pods.firstContainerIssue pod = none →
        ¬ 5 < Pods.regularRestartSum pod →
          (Pods.scan_pod pod).isErr = false
            ∧ (Pods.scan_pod pod).reason = none
            ∧ (Pods.scan_pod pod).message = none)
    ∧ (∀ r0, Pods.phaseOf pod = "Failed" →
        pod.status.bind Pods.PodStatus.reason = some r0 →
          (Pods.scan_pod pod).reason = some r0
            ∧ (Pods.scan_pod pod).message
              = pod.status.bind Pods.PodStatus.message) := by
  by_cases hf : Pods.phaseOf pod = "Failed"
  · obtain ⟨g1, g2, g3, g4⟩ := double_fold_spec
      ((pod.status.bind Pods.PodStatus.containerStatuses).getD [])
      ((pod.status.bind Pods.PodStatus.initContainerStatuses).getD [])
      { totalRestarts := 0, isErr := true,
        reason := pod.status.bind Pods.PodStatus.reason,
        message := pod.status.bind Pods.PodStatus.message, containers := [] }
    have hF : Pods.scan_pod pod =
        List.foldl (Pods.scanContainer true)
          (List.foldl (Pods.scanContainer false)
            { totalRestarts := 0, isErr := true,
              reason := pod.status.bind Pods.PodStatus.reason,
              message := pod.status.bind Pods.PodStatus.message, containers := [] }
            ((pod.status.bind Pods.PodStatus.containerStatuses).getD []))
          ((pod.status.bind Pods.PodStatus.initContainerStatuses).getD []) := by
      simp only [Pods.scan_pod, hf, if_true]
      rw [if_neg]
      rintro ⟨-, hcond2⟩
      rw [g2] at hcond2
      simp at hcond2
    rw [hF]
    refine ⟨?_, ?_, ?_, ?_, ?_, ?_⟩
    · rw [g1]
      simp [Pods.regularRestartSum]
    · rw [g2, hf]
      simp
    · intro hne
      exact absurd hf hne
    · intro hne
      exact absurd hf hne
    · intro hne
      exact absurd hf hne
    · rintro r0 - hr0
      exact g3 r0 hr0
  · obtain ⟨g1, g2, g3, g4⟩ := double_fold_spec
      ((pod.status.bind Pods.PodStatus.containerStatuses).getD [])
      ((pod.status.bind Pods.PodStatus.initContainerStatuses).getD [])
      { totalRestarts := 0, isErr := false, reason := none, message := none,
        containers := [] }
    obtain ⟨gr, gm⟩ := g4 rfl rfl
    set st2 := List.foldl (Pods.scanContainer true)
      (List.foldl (Pods.scanContainer false)
        { totalRestarts := 0, isErr := false, reason := none, message := none,
          containers := [] }
        ((pod.status.bind Pods.PodStatus.containerStatuses).getD []))
      ((pod.status.bind Pods.PodStatus.initContainerStatuses).getD []) with hst2
    have hfc : Pods.firstContainerIssue pod =
        List.findSome? Pods.containerIssueOf
          ((pod.status.bind Pods.PodStatus.containerStatuses).getD []
            ++ (pod.status.bind Pods.PodStatus.initContainerStatuses).getD []) := rfl
    have htr : st2.totalRestarts = Pods.regularRestartSum pod := by
      rw [g1]; simp [Pods.regularRestartSum]
    have hun : Pods.scan_pod pod =
        (if st2.totalRestarts > 5 ∧ st2.isErr = false then
          { st2 with
            isErr := true,
            reason := some ("HighRestartCount ("
              ++ toString st2.totalRestarts ++ ")") }
        else st2) := by
      rw [hst2]
      simp only [Pods.scan_pod, hf, if_false, ite_false]
    have hsimp0 : st2.isErr = (Pods.firstContainerIssue pod).isSome := by
      rw [g2, hfc]; simp
    have hsimpr : st2.reason = (Pods.firstContainerIssue pod).bind Prod.fst := by
      rw [gr, hfc]
    have hsimpm : st2.message
        = ((Pods.firstContainerIssue pod).map Prod.snd).getD none := by
      rw [gm, hfc]
    rcases hci : Pods.firstContainerIssue pod with - | rm
    · rw [hci] at hsimp0 hsimpr hsimpm
      simp only [Option.isSome_none, Option.none_bind, Option.map_none',
        Option.getD_none] at hsimp0 hsimpr hsimpm
      by_cases hrs : 5 < Pods.regularRestartSum pod
      · have hcond : st2.totalRestarts > 5 ∧ st2.isErr = false := by
          constructor
          · rw [htr]; exact hrs
          · exact hsimp0
        rw [hun, if_pos hcond]
        refine ⟨?_, ?_, ?_, ?_, ?_, ?_⟩
        · simpa using htr
        · simp [hf, hrs]
        · rintro - rm hrm
          exact Option.noConfusion hrm
        · rintro - - -
          constructor
          · simp [htr]
          · simpa using hsimpm
        · rintro - - hcon
          exact absurd hrs hcon
        · intro r0 hr0
          exact absurd hr0 hf
      · have hcond : ¬ (st2.totalRestarts > 5 ∧ st2.isErr = false) := by
          rintro ⟨hc1, -⟩
          rw [htr] at hc1
          exact hrs hc1
        rw [hun, if_neg hcond]
        refine ⟨htr, ?_, ?_, ?_, ?_, ?_⟩
        · rw [hsimp0]
          simp [hf, hrs]
        · rintro - rm hrm
          exact Option.noConfusion hrm
        · rintro - - hcon
          exact absurd hcon hrs
        · rintro - - -
          exact ⟨hsimp0, hsimpr, hsimpm⟩
        · intro r0 hr0
          exact absurd hr0 hf
    · rw [hci] at hsimp0 hsimpr hsimpm
      simp only [Option.isSome_some, Option.some_bind, Option.map_some',
        Option.getD_some] at hsimp0 hsimpr hsimpm
      have hcond : ¬ (st2.totalRestarts > 5 ∧ st2.isErr = false) := by
        rintro ⟨-, hc2⟩
        rw [hsimp0] at hc2
        exact Bool.noConfusion hc2
      rw [hun, if_neg hcond]
      refine ⟨htr, ?_, ?_, ?_, ?_, ?_⟩
      · rw [hsimp0]
        simp
      · rintro - rm2 hrm2
        injection hrm2 with h2
        subst h2
        exact ⟨hsimpr, hsimpm⟩
      · rintro - hnone -
        exact Option.noConfusion hnone
      · rintro - hnone
        exact Option.noConfusion hnone
      · intro r0 hr0
        exact absurd hr0 hf

/-! ## Node-level pod error heuristic (src/nodes.rs) -/

namespace Nodes

/-- Function is_pod_in_error from src/nodes.rs: the node-level pod
error heuristic. It treats phase Failed or Unknown as an error (with
an empty-string default phase), checks only Waiting reasons of the
regular container statuses against a five-string exact set, and uses
the per-container restart count. -/
def is_pod_in_error (pod : Pods.Pod) : Bool :=
  let phase := (pod.status.bind Pods.PodStatus.phase).getD ""
  if phase = "Failed" ∨ phase = "Unknown" then true
  else
    match pod.status with
    | some status =>
      match status.containerStatuses with
      | some css =>
        css.any (fun cs =>
          (match cs.state.bind Pods.ContainerState.waiting with
           | some w =>
             let reason := w.reason.getD ""
             reason == "CrashLoopBackOff" || reason == "Error"
               || reason == "ImagePullBackOff" || reason == "ErrImagePull"
               || reason == "CreateContainerError"
           | none => false)
          || cs.restartCount > 5)
      | none => false
    | none => false

end Nodes

/-- A pod whose phase is Unknown and which has no container statuses. -/
def podUnknownExample : Pods.Pod :=
  { metadata := { name := some "p", namespaceName := some "ns",
                  creationTimestamp := none },
    spec := none,
    status := some
      { phase := some "Unknown", reason := none, message := none,
        containerStatuses := none, initContainerStatuses := none } }

/-- A running pod with one container waiting with reason OOMKilled. -/
def podWaitOomExample : Pods.Pod :=
  { metadata := { name := some "q", namespaceName := some "ns",
                  creationTimestamp := none },
    spec := none,
    status := some
      { phase := some "Running", reason := none, message := none,
        containerStatuses := some
          [{ name := "c", ready := true, restartCount := 0,
             state := some
               { running := none,
                 waiting := some { reason := some "OOMKilled", message := none },
                 terminated := none } }],
        initContainerStatuses := none } }

/-- C5 counterexample: the claim describes one detector, but neither
detector of the repository satisfies it. The get_pods_status detector
does not treat phase Unknown as an error (it only checks Failed), and
the node-level is_pod_in_error does not treat a Waiting reason from
the twelve-string set (here OOMKilled, a member of ERROR_REASONS) as
an error, since it compares against a five-string set only. -/
theorem pods_error_detector_claim_counterexample :
    (Pods.phaseOf podUnknownExample = "Unknown"
      ∧ (Pods.scan_pod podUnknownExample).isErr = false)
    ∧ ("OOMKilled" ∈ Pods.ERROR_REASONS
      ∧ Nodes.is_pod_in_error podWaitOomExample = false) := by
  decide

/-- A running pod with one container in CrashLoopBackOff, used to
witness the amended detector theorem. -/
def podCrashExample : Pods.Pod :=
  { metadata := { name := some "r", namespaceName := some "ns",
                  creationTimestamp := none },
    spec := none,
    status := some
      { phase := some "Running", reason := none, message := none,
        containerStatuses := some
          [{ name := "c", ready := false, restartCount := 3,
             state := some
               { running := none,
                 waiting := some { reason := some "CrashLoopBackOff",
                                   message := some "back-off 5m" },
                 terminated := none } }],
        initContainerStatuses := none } }

/-- Witness for the amended detector theorem: a running pod with a
CrashLoopBackOff container is detected with that reason and message. -/
theorem pods_error_detector_amended_witness :
    Pods.phaseOf podCrashExample ≠ "Failed"
    ∧ Pods.firstContainerIssue podCrashExample
        = some (some "CrashLoopBackOff", some "back-off 5m")
    ∧ (Pods.scan_pod podCrashExample).reason = some "CrashLoopBackOff"
    ∧ (Pods.scan_pod podCrashExample).message = some "back-off 5m" :=
  ⟨by decide, by decide,
    ((pods_error_detector_amended podCrashExample).2.2.1 (by decide)
      (some "CrashLoopBackOff", some "back-off 5m") (by decide)).1,
    ((pods_error_detector_amended podCrashExample).2.2.1 (by decide)
      (some "CrashLoopBackOff", some "back-off 5m") (by decide)).2⟩

/-- The sort comparator relation is total. -/
instance : IsTotal Pods.PodInfo Pods.podRel := by
  constructor
  intro a b
  simp only [Pods.podRel, Pods.podLe, Bool.or_eq_true, Bool.and_eq_true,
    decide_eq_true_eq, beq_iff_eq]
  omega

/-- The sort comparator relation is transitive. -/
instance : IsTrans Pods.PodInfo Pods.podRel := by
  constructor
  intro a b c
  simp only [Pods.podRel, Pods.podLe, Bool.or_eq_true, Bool.and_eq_true,
    decide_eq_true_eq, beq_iff_eq]
  omega

/-- One pod loop step moves the error counter and the error list
length together. -/
theorem processPod_step_error_counts (now : Int) (parse : String → Option Int)
    (r : Pods.PodsStatusResponse) (pod : Pods.Pod) :
    (Pods.processPod now parse r pod).errorPods
        = r.errorPods + (if (Pods.scan_pod pod).isErr then 1 else 0)
    ∧ (Pods.processPod now parse r pod).podsInError.length
        = r.podsInError.length + (if (Pods.scan_pod pod).isErr then 1 else 0) := by
  simp only [Pods.processPod]
  split_ifs <;> simp

/-- Folding the pod loop preserves the agreement between the error
counter and the error list length. -/
theorem foldl_processPod_error_agree (now : Int) (parse : String → Option Int) :
    ∀ (pods : List Pods.Pod) (r : Pods.PodsStatusResponse),
      r.errorPods = r.podsInError.length →
        (pods.foldl (Pods.processPod now parse) r).errorPods
          = (pods.foldl (Pods.processPod now parse) r).podsInError.length := by
  intro pods
  induction pods with
  | nil => intro r h; simpa using h
  | cons p pl ih =>
    intro r h
    obtain ⟨h1, h2⟩ := processPod_step_error_counts now parse r p
    simp only [List.foldl_cons]
    exact ih (Pods.processPod now parse r p) (by rw [h1, h2, h])

/-- C10: in every PodsStatusResponse produced by get_pods_status, the
error counter equals the length of the error list, and the error list
is pairwise ordered by descending restart count with ties broken by
ascending age in seconds (newest first). -/
theorem get_pods_status_error_list_sorted (pods : List Pods.Pod) (now : Int)
    (parse : String → Option Int) :
    (Pods.get_pods_status pods now parse).errorPods
      = (Pods.get_pods_status pods now parse).podsInError.length
    ∧ List.Pairwise
        (fun a b => b.restartCount < a.restartCount
          ∨ (a.restartCount = b.restartCount ∧ a.ageSeconds ≤ b.ageSeconds))
        (Pods.get_pods_status pods now parse).podsInError := by
  constructor
  · simp only [Pods.get_pods_status]
    have hlen := (List.perm_insertionSort Pods.podRel
      (pods.foldl (Pods.processPod now parse)
        { totalPods := pods.length, runningPods := 0, pendingPods := 0,
          succeededPods := 0, failedPods := 0, errorPods := 0,
          podsInError := [] }).podsInError).length_eq
    have hagree := foldl_processPod_error_agree now parse pods
      { totalPods := pods.length, runningPods := 0, pendingPods := 0,
        succeededPods := 0, failedPods := 0, errorPods := 0,
        podsInError := [] } rfl
    simpa [hlen] using hagree
  · simp only [Pods.get_pods_status]
    have hsorted := List.sorted_insertionSort Pods.podRel
      (pods.foldl (Pods.processPod now parse)
        { totalPods := pods.length, runningPods := 0, pendingPods := 0,
          succeededPods := 0, failedPods := 0, errorPods := 0,
          podsInError := [] }).podsInError
    refine hsorted.imp ?_
    intro a b hab
    simp only [Pods.podRel, Pods.podLe, Bool.or_eq_true, Bool.and_eq_true,
      decide_eq_true_eq, beq_iff_eq] at hab
    exact hab

/-! ## Notification session module (src/ws.rs)

The actix actor is embedded as explicit state passing: the session
record holds the liveness instant (epoch seconds as Nat) and the three
last-known counters; each handler is a pure function from the session
and the event to the new session and the emitted effects. -/

namespace Ws

/-- Constant HEARTBEAT_INTERVAL (seconds). -/
def HEARTBEAT_INTERVAL : Nat := 5

/-- Constant CLIENT_TIMEOUT (seconds). -/
def CLIENT_TIMEOUT : Nat := 10

/-- Constant ALERT_CHECK_INTERVAL (seconds). -/
def ALERT_CHECK_INTERVAL : Nat := 30

/-- Wire message enumeration NotificationMessage from src/ws.rs. -/
inductive NotificationMessage where
  | alert (severity title message source timestamp : String)
  | statsUpdate (argocdIssues errorPods warningEvents : Nat)
  | connected (message : String)
  | heartbeat (timestamp : String)
  deriving Repr, DecidableEq

/-- Session state NotificationSession from src/ws.rs: the liveness
instant hb and the three last-known counters. -/
structure NotificationSession where
  hb : Nat
  lastArgocdIssues : Nat
  lastErrorPods : Nat
  lastWarningEvents : Nat
  deriving Repr, DecidableEq

/-- Constructor NotificationSession::new: hb is the current instant
and the counters start at zero. -/
def NotificationSession.new (now : Nat) : NotificationSession :=
  { hb := now, lastArgocdIssues := 0, lastErrorPods := 0, lastWarningEvents := 0 }

/-- Inbound stream items of the StreamHandler: the five handled frame
kinds plus one case for the wildcard arm (protocol errors and other
frames), which stops the session. -/
inductive WsMessage where
  | ping (payload : List Nat)
  | pong (payload : List Nat)
  | text (content : String)
  | binary (payload : List Nat)
  | close
  | other
  deriving Repr, DecidableEq

/-- Effects a handler can produce on the connection context. -/
inductive WsEffect where
  | sendPing (payload : List Nat)
  | sendPong (payload : List Nat)
  | sendText (m : NotificationMessage)
  | requestStats
  | closeConn
  | stop
  deriving Repr, DecidableEq

/-- The StreamHandler match of src/ws.rs: ping updates hb and pongs
back, pong updates hb, text answers the ping and stats commands (after
trimming) without touching hb, binary is ignored, close closes and
stops, and anything else stops the session. -/
def handle (s : NotificationSession) (now : Nat) (nowTs : String)
    (msg : WsMessage) : NotificationSession × List WsEffect :=
  match msg with
  | WsMessage.ping payload => ({ s with hb := now }, [WsEffect.sendPong payload])
  | WsMessage.pong _ => ({ s with hb := now }, [])
  | WsMessage.text content =>
    if trimStr content = "ping" then
      (s, [WsEffect.sendText (NotificationMessage.heartbeat nowTs)])
    else if trimStr content = "stats" then
      (s, [WsEffect.requestStats])
    else (s, [])
  | WsMessage.binary _ => (s, [])
  | WsMessage.close => (s, [WsEffect.closeConn, WsEffect.stop])
  | WsMessage.other => (s, [WsEffect.stop])

/-- The heartbeat interval body of NotificationSession::hb: stop when
the client has been silent longer than CLIENT_TIMEOUT, else send a
protocol ping; the session state is read, never written. -/
def hbTick (s : NotificationSession) (now : Nat) :
    NotificationSession × List WsEffect :=
  if now - s.hb > CLIENT_TIMEOUT then (s, [WsEffect.stop])
  else (s, [WsEffect.sendPing []])

/-- Function check_for_new_alerts from src/ws.rs as a pure function of
the two provider results: a warning alert when any application is
unhealthy, an error alert when any pod errs, and the first built alert
(if any) is returned. The session state is not consulted. -/
def check_for_new_alerts (argo : Except String Argo.ArgoStatusResponse)
    (pods : Except String Pods.PodsStatusResponse) (nowTs : String) :
    Option NotificationMessage :=
  let alerts : List NotificationMessage :=
    (match argo with
     | Except.ok argocdStatus =>
       if argocdStatus.unhealthy > 0 then
         [NotificationMessage.alert "warning" "ArgoCD Apps Unhealthy"
           (toString argocdStatus.unhealthy ++ " applications need attention")
           "argocd" nowTs]
       else []
     | Except.error _ => [])
    ++
    (match pods with
     | Except.ok podsStatus =>
       if podsStatus.errorPods > 0 then
         [NotificationMessage.alert "error" "Pods in Error"
           (toString podsStatus.errorPods ++ " pods are in error state")
           "pods" nowTs]
       else []
     | Except.error _ => [])
  alerts.head?

/-- The alert-poll interval body of NotificationSession::check_alerts:
it spawns check_for_new_alerts and sends its result; the session state
(act) is not read or written by the closure. -/
def alertTick (s : NotificationSession)
    (argo : Except String Argo.ArgoStatusResponse)
    (pods : Except String Pods.PodsStatusResponse) (nowTs : String) :
    NotificationSession × Option NotificationMessage :=
  (s, check_for_new_alerts argo pods nowTs)

/-- Does a frame count as a liveness signal in the handler (only ping
and pong update hb)? -/
def isLivenessFrame : WsMessage → Bool
  | WsMessage.ping _ => true
  | WsMessage.pong _ => true
  | _ => false

end Ws

/-! ## Theorems for the notification session (claims C3 and C4) -/

/-- C4 counterexample: an inbound text frame does not update the
liveness timestamp, refuting the claim that every inbound frame does
(the handler leaves hb at 0 although the frame arrives at instant 42). -/
theorem session_liveness_text_counterexample :
    ¬ ((Ws.handle
        { hb := 0, lastArgocdIssues := 0, lastErrorPods := 0,
          lastWarningEvents := 0 } 42 "ts" (Ws.WsMessage.text "hello")).1.hb
      = 42) := by
  decide

/-- C4 amended: the liveness timestamp hb is updated exactly by
inbound Ping and Pong frames (set to the arrival instant); text,
binary, close and error frames leave it unchanged, and neither the
heartbeat tick nor the alert-poll tick modifies the session state at
all. The other session fields are never touched by the frame handler. -/
theorem session_liveness_timestamp_amended :
    (∀ (s : Ws.NotificationSession) (now : Nat) (nowTs : String)
        (msg : Ws.WsMessage),
      (Ws.handle s now nowTs msg).1.hb
          = (if Ws.isLivenessFrame msg then now else s.hb)
        ∧ (Ws.handle s now nowTs msg).1.lastArgocdIssues = s.lastArgocdIssues
        ∧ (Ws.handle s now nowTs msg).1.lastErrorPods = s.lastErrorPods
        ∧ (Ws.handle s now nowTs msg).1.lastWarningEvents = s.lastWarningEvents)
    ∧ (∀ (s : Ws.NotificationSession) (now : Nat), (Ws.hbTick s now).1 = s)
    ∧ (∀ (s : Ws.NotificationSession)
        (argo : Except String Argo.ArgoStatusResponse)
        (pods : Except String Pods.PodsStatusResponse) (nowTs : String),
      (Ws.alertTick s argo pods nowTs).1 = s) := by
  refine ⟨?_, ?_, ?_⟩
  · intro s now nowTs msg
    cases msg <;> simp [Ws.handle, Ws.isLivenessFrame]
    case text content =>
      split_ifs <;> simp
  · intro s now
    simp only [Ws.hbTick]
    split_ifs <;> rfl
  · intro s argo pods nowTs
    rfl

/-- A session whose last-known application-issue counter is three. -/
def sessionThreeKnown : Ws.NotificationSession :=
  { hb := 0, lastArgocdIssues := 3, lastErrorPods := 0, lastWarningEvents := 0 }

/-- An ArgoCD status snapshot with three unhealthy applications. -/
def argoThreeUnhealthy : Argo.ArgoStatusResponse :=
  { total := 5, healthy := 2, unhealthy := 3, synced := 2, outOfSync := 0,
    unknown := 0, progressing := 0, upgradesAvailable := 0,
    appsWithIssues := [], appsWithUpgrades := [] }

/-- A pods status snapshot with no pods in error. -/
def podsNoErrors : Pods.PodsStatusResponse :=
  { totalPods := 4, runningPods := 4, pendingPods := 0, succeededPods := 0,
    failedPods := 0, errorPods := 0, podsInError := [] }

/-- C3: the alert-poll tick emits an alert although no counter has
increased: the session already knows three unhealthy applications, the
fresh snapshot still reports three, yet a warning alert is produced,
and the stored counters are left untouched (the code never reads or
updates them after construction). This exhibits the always-resend
defect the specification flags in its design notes. -/
theorem alert_tick_resends_without_increase :
    Ws.alertTick sessionThreeKnown (Except.ok argoThreeUnhealthy)
        (Except.ok podsNoErrors) "t0"
      = (sessionThreeKnown,
         some (Ws.NotificationMessage.alert "warning" "ArgoCD Apps Unhealthy"
           "3 applications need attention" "argocd" "t0"))
    ∧ sessionThreeKnown.lastArgocdIssues = argoThreeUnhealthy.unhealthy := by
  decide

/-! ## Report aggregator module (src/export.rs)

The aggregator consumes six provider results. The detail records of
the providers the aggregator never inspects (node entries, event
entries, PVC entries, alert entries, the metrics payload) are type
parameters of the embedding; the count fields it does read are
explicit. Provider calls, concurrent in the source, are embedded as
six already-completed results; the error inspection happens in source
order (nodes, ArgoCD, events, storage). -/

namespace Export

/-- NodesStatusResponse from src/nodes.rs (counts plus node entries). -/
structure NodesStatusResponse (ν : Type) where
  totalNodes : Nat
  readyNodes : Nat
  notReadyNodes : Nat
  nodes : List ν
  deriving Repr, DecidableEq

/-- EventsResponse from src/events.rs (counts plus event entries). -/
structure EventsResponse (ε : Type) where
  totalEvents : Nat
  warningCount : Nat
  normalCount : Nat
  events : List ε
  deriving Repr, DecidableEq

/-- StorageStatusResponse from src/storage.rs (counts plus PVC
entries). -/
structure StorageStatusResponse (π : Type) where
  pvcCount : Nat
  pvcTotalCapacityBytes : Nat
  pvcTotalUsageBytes : Nat
  pvcs : List π
  deriving Repr, DecidableEq

/-- AlertsResponse from src/alertmanager.rs (alert buckets plus
counters). -/
structure AlertsResponse (α : Type) where
  critical : List α
  warning : List α
  info : List α
  total : Int
  firing : Int
  pending : Int
  deriving Repr, DecidableEq

/-- ReportSummary from src/export.rs. -/
structure ReportSummary where
  totalNodes : Nat
  readyNodes : Nat
  totalApps : Nat
  healthyApps : Nat
  unhealthyApps : Nat
  totalAlerts : Int
  criticalAlerts : Int
  warningAlerts : Int
  totalEvents : Nat
  warningEvents : Nat
  totalPvcs : Nat
  deriving Repr, DecidableEq

/-- ClusterReport from src/export.rs. -/
structure ClusterReport (ν ε π α μ : Type) where
  generatedAt : String
  clusterName : String
  summary : ReportSummary
  nodes : NodesStatusResponse ν
  argocdApps : Argo.ArgoStatusResponse
  alerts : Option (AlertsResponse α)
  events : EventsResponse ε
  storage : StorageStatusResponse π
  metrics : Option μ

/-- Function generate_report from src/export.rs as a pure function of
the six provider results and the generation timestamp: the four
required results are unwrapped in source order with source-naming
error wrappers, the two optional results degrade to none, and the
summary is computed from the unwrapped data. -/
def generate_report {ν ε π α μ : Type}
    (nodesResult : Except String (NodesStatusResponse ν))
    (argocdResult : Except String Argo.ArgoStatusResponse)
    (alertsResult : Except String (AlertsResponse α))
    (eventsResult : Except String (EventsResponse ε))
    (storageResult : Except String (StorageStatusResponse π))
    (metricsResult : Except String μ)
    (nowTs : String) : Except String (ClusterReport ν ε π α μ) :=
  match nodesResult with
  | Except.error e => Except.error ("Failed to get nodes: " ++ e)
  | Except.ok nodesData =>
    match argocdResult with
    | Except.error e => Except.error ("Failed to get ArgoCD status: " ++ e)
    | Except.ok argocdData =>
      match eventsResult with
      | Except.error e => Except.error ("Failed to get events: " ++ e)
      | Except.ok eventsData =>
        match storageResult with
        | Except.error e => Except.error ("Failed to get storage: " ++ e)
        | Except.ok storageData =>
          let alertsData := alertsResult.toOption
          let metricsData := metricsResult.toOption
          let summary : ReportSummary :=
            { totalNodes := nodesData.totalNodes,
              readyNodes := nodesData.readyNodes,
              totalApps := argocdData.total,
              healthyApps := argocdData.healthy,
              unhealthyApps := argocdData.unhealthy,
              totalAlerts := (alertsData.map AlertsResponse.total).getD 0,
              criticalAlerts :=
                (alertsData.map (fun a => (a.critical.length : Int))).getD 0,
              warningAlerts :=
                (alertsData.map (fun a => (a.warning.length : Int))).getD 0,
              totalEvents := eventsData.totalEvents,
              warningEvents := eventsData.warningCount,
              totalPvcs := storageData.pvcCount }
          Except.ok
            { generatedAt := nowTs, clusterName := "k3s-cluster",
              summary := summary, nodes := nodesData,
              argocdApps := argocdData, alerts := alertsData,
              events := eventsData, storage := storageData,
              metrics := metricsData }

end Export

/-! ## Theorems for the report aggregator (claims C2 and C8) -/

/-- C2: generate_report fails with an error naming the failing source
whenever one of the four required providers (nodes, ArgoCD
applications, events, storage) fails, the first failure in source
order winning; when all four succeed it produces a report even if the
optional alerts or metrics providers failed, in which case the
corresponding field is none while every other field carries the
provider data. -/
theorem generate_report_required_optional {ν ε π α μ : Type}
    (nodesResult : Except String (Export.NodesStatusResponse ν))
    (argocdResult : Except String Argo.ArgoStatusResponse)
    (alertsResult : Except String (Export.AlertsResponse α))
    (eventsResult : Except String (Export.EventsResponse ε))
    (storageResult : Except String (Export.StorageStatusResponse π))
    (metricsResult : Except String μ) (nowTs : String) :
    (∀ e, nodesResult = Except.error e →
      Export.generate_report nodesResult argocdResult alertsResult eventsResult
          storageResult metricsResult nowTs
        = Except.error ("Failed to get nodes: " ++ e))
    ∧ (∀ n e, nodesResult = Except.ok n → argocdResult = Except.error e →
      Export.generate_report nodesResult argocdResult alertsResult eventsResult
          storageResult metricsResult nowTs
        = Except.error ("Failed to get ArgoCD status: " ++ e))
    ∧ (∀ n a e, nodesResult = Except.ok n → argocdResult = Except.ok a →
        eventsResult = Except.error e →
      Export.generate_report nodesResult argocdResult alertsResult eventsResult
          storageResult metricsResult nowTs
        = Except.error ("Failed to get events: " ++ e))
    ∧ (∀ n a ev e, nodesResult = Except.ok n → argocdResult = Except.ok a →
        eventsResult = Except.ok ev → storageResult = Except.error e →
      Export.generate_report nodesResult argocdResult alertsResult eventsResult
          storageResult metricsResult nowTs
        = Except.error ("Failed to get storage: " ++ e))
    ∧ (∀ n a ev st, nodesResult = Except.ok n → argocdResult = Except.ok a →
        eventsResult = Except.ok ev → storageResult = Except.ok st →
      Export.generate_report nodesResult argocdResult alertsResult eventsResult
          storageResult metricsResult nowTs
        = Except.ok
          { generatedAt := nowTs, clusterName := "k3s-cluster",
            summary :=
              { totalNodes := n.totalNodes, readyNodes := n.readyNodes,
                totalApps := a.total, healthyApps := a.healthy,
                unhealthyApps := a.unhealthy,
                totalAlerts :=
                  (alertsResult.toOption.map Export.AlertsResponse.total).getD 0,
                criticalAlerts :=
                  (alertsResult.toOption.map
                    (fun al => (al.critical.length : Int))).getD 0,
                warningAlerts :=
                  (alertsResult.toOption.map
                    (fun al => (al.warning.length : Int))).getD 0,
                totalEvents := ev.totalEvents,
                warningEvents := ev.warningCount,
                totalPvcs := st.pvcCount },
            nodes := n, argocdApps := a, alerts := alertsResult.toOption,
            events := ev, storage := st,
            metrics := metricsResult.toOption }) := by
  refine ⟨?_, ?_, ?_, ?_, ?_⟩
  · intro e he
    simp [Export.generate_report, he]
  · intro n e hn he
    simp [Export.generate_report, hn, he]
  · intro n a e hn ha he
    simp [Export.generate_report, hn, ha, he]
  · intro n a ev e hn ha hev he
    simp [Export.generate_report, hn, ha, hev, he]
  · intro n a ev st hn ha hev hst
    simp [Export.generate_report, hn, ha, hev, hst]

/-- A three-node nodes snapshot for the aggregator witness. -/
def nodesOkW : Export.NodesStatusResponse Unit :=
  { totalNodes := 3, readyNodes := 3, notReadyNodes := 0, nodes := [] }

/-- A seven-event events snapshot for the aggregator witness. -/
def eventsOkW : Export.EventsResponse Unit :=
  { totalEvents := 7, warningCount := 2, normalCount := 5, events := [] }

/-- A four-PVC storage snapshot for the aggregator witness. -/
def storageOkW : Export.StorageStatusResponse Unit :=
  { pvcCount := 4, pvcTotalCapacityBytes := 100, pvcTotalUsageBytes := 50,
    pvcs := [] }

/-- Witness for the aggregator theorem at the two scenarios of the
claim: an events failure with the other required sources succeeding
fails the whole report naming the events source, and an alerts-only
failure yields a successful report whose alerts field is none with all
other fields populated. -/
theorem generate_report_required_optional_witness :
    (Export.generate_report (Except.ok nodesOkW)
        (Except.ok argoThreeUnhealthy)
        (Except.error "alertmanager down"
          : Except String (Export.AlertsResponse Unit))
        (Except.error "events api down"
          : Except String (Export.EventsResponse Unit))
        (Except.ok storageOkW)
        (Except.error "prometheus down" : Except String Unit) "ts"
      = Except.error ("Failed to get events: " ++ "events api down"))
    ∧ (Export.generate_report (Except.ok nodesOkW)
        (Except.ok argoThreeUnhealthy)
        (Except.error "alertmanager down"
          : Except String (Export.AlertsResponse Unit))
        (Except.ok eventsOkW) (Except.ok storageOkW)
        (Except.error "prometheus down" : Except String Unit) "ts"
      = Except.ok
        { generatedAt := "ts", clusterName := "k3s-cluster",
          summary :=
            { totalNodes := 3, readyNodes := 3, totalApps := 5,
              healthyApps := 2, unhealthyApps := 3, totalAlerts := 0,
              criticalAlerts := 0, warningAlerts := 0, totalEvents := 7,
              warningEvents := 2, totalPvcs := 4 },
          nodes := nodesOkW, argocdApps := argoThreeUnhealthy, alerts := none,
          events := eventsOkW, storage := storageOkW, metrics := none }) :=
  ⟨(generate_report_required_optional (Except.ok nodesOkW)
      (Except.ok argoThreeUnhealthy)
      (Except.error "alertmanager down"
        : Except String (Export.AlertsResponse Unit))
      (Except.error "events api down"
        : Except String (Export.EventsResponse Unit))
      (Except.ok storageOkW)
      (Except.error "prometheus down" : Except String Unit) "ts").2.2.1
      nodesOkW argoThreeUnhealthy "events api down" rfl rfl rfl,
   (generate_report_required_optional (Except.ok nodesOkW)
      (Except.ok argoThreeUnhealthy)
      (Except.error "alertmanager down"
        : Except String (Export.AlertsResponse Unit))
      (Except.ok eventsOkW) (Except.ok storageOkW)
      (Except.error "prometheus down" : Except String Unit) "ts").2.2.2.2
      nodesOkW argoThreeUnhealthy eventsOkW storageOkW rfl rfl rfl rfl⟩

/-- C8: the report summary is a pure function of the provider outputs:
running the aggregator on the same six provider results at two
different generation instants yields the same ReportSummary, so two
runs with identical provider outputs always agree on every count. -/
theorem report_summary_pure {ν ε π α μ : Type}
    (nodesResult : Except String (Export.NodesStatusResponse ν))
    (argocdResult : Except String Argo.ArgoStatusResponse)
    (alertsResult : Except String (Export.AlertsResponse α))
    (eventsResult : Except String (Export.EventsResponse ε))
    (storageResult : Except String (Export.StorageStatusResponse π))
    (metricsResult : Except String μ) (ts1 ts2 : String) :
    (Export.generate_report nodesResult argocdResult alertsResult eventsResult
        storageResult metricsResult ts1).map Export.ClusterReport.summary
      = (Export.generate_report nodesResult argocdResult alertsResult
          eventsResult storageResult metricsResult ts2).map
            Export.ClusterReport.summary := by
  cases nodesResult <;> cases argocdResult <;> cases eventsResult <;>
    cases storageResult <;>
      simp [Export.generate_report, Except.map]
